import Mathlib

/-!
Shallow embedding of the BookNest server (Express routes in server/index.ts
together with its route registration module, the shared drizzle schema, and
the MongoStorage persistence class).

Modelling conventions:
- MongoDB collections become Lean lists held in a `StorageState` record; the
  Mongo operations `find`, `findOne`, `insertOne`, `deleteOne`, `deleteMany`
  and `findOneAndUpdate` become list filtering, `List.find?`, appending,
  first-match erasure and first-match in-place update respectively
  (`findOne`-family operations act on the first matching document, exactly as
  the driver does for an unsorted query).
- JavaScript numbers carried by the relevant fields are integers in every
  code path the claims touch (ids, ratings, option indices, counts); they are
  embedded as `Nat`/`Int`.  The stored average rating is a quotient of
  integers and is embedded as `Rat`.
- Wall-clock timestamp fields (`createdAt`, `addedAt`, `likedAt`, `joinedAt`)
  play no role in any claim and are omitted from the records.
- The express-session object is a `SessionState` record; the
  `session.isVerified` record-of-booleans, which may be absent (undefined),
  is an `Option (Nat → Bool)`.
- Request bodies reaching `reviewWithVerificationSchema.parse` are embedded
  as `RawReviewBody` over a small JSON value type `Js`; the zod parse is the
  function `parseReviewBody` (the schema checks field types only — it imposes
  no numeric range on `rating`, mirroring `createInsertSchema(reviews)`).
-/

namespace BookNest

/-- A document of the `users` collection (shared schema `users` table). -/
structure User where
  id : Nat
  name : String
  email : String
  password : String
  isAdmin : Bool
  isActive : Bool
deriving Repr, DecidableEq

/-- Payload accepted by `storage.createUser` (insertUserSchema fields). -/
structure InsertUser where
  name : String
  email : String
  password : String
  isAdmin : Bool
deriving Repr, DecidableEq

/-- A document of the `books` collection (shared schema `books` table). -/
structure Book where
  id : Nat
  title : String
  author : String
  publisher : Option String
  publishedDate : Option String
  description : String
  category : String
  isbn : Option String
  coverImage : Option String
  averageRating : Rat
  totalReviews : Nat
deriving Repr, DecidableEq

/-- A document of the `verificationQuestions` collection. -/
structure VerificationQuestion where
  id : Nat
  bookId : Nat
  question : String
  options : List String
  correctOptionIndex : Int
deriving Repr, DecidableEq

/-- A document of the `reviews` collection. -/
structure Review where
  id : Nat
  bookId : Nat
  userId : Nat
  rating : Int
  content : String
deriving Repr, DecidableEq

/-- Payload accepted by `storage.createReview` (insertReviewSchema fields). -/
structure InsertReview where
  bookId : Nat
  userId : Nat
  rating : Int
  content : String
deriving Repr, DecidableEq

/-- A document of the `readingLists` collection. -/
structure ReadingListEntry where
  id : Nat
  userId : Nat
  bookId : Nat
  progress : Int
deriving Repr, DecidableEq

/-- A document of the `likedBooks` collection. -/
structure LikedBookEntry where
  id : Nat
  userId : Nat
  bookId : Nat
deriving Repr, DecidableEq

/-- The MongoDB database state seen through `MongoStorage`: one list per
collection the storage class touches. -/
structure StorageState where
  users : List User
  books : List Book
  verificationQuestions : List VerificationQuestion
  reviews : List Review
  readingLists : List ReadingListEntry
  likedBooks : List LikedBookEntry
deriving Repr, DecidableEq

/-- Manual sequential id generation shared by every `create*` method of
`MongoStorage`: the query sorts descending by `id`, takes the first document
and adds 1, or starts at 1 when the collection is empty. -/
def nextId (ids : List Nat) : Nat :=
  match ids.max? with
  | some m => m + 1
  | none => 1

/-- `MongoStorage.getBook`: `findOne({ id })` on the `books` collection. -/
def getBook (s : StorageState) (id : Nat) : Option Book :=
  s.books.find? (fun b => b.id == id)

/-- `MongoStorage.getUserByEmail`: `findOne({ email })` on `users`. -/
def getUserByEmail (s : StorageState) (email : String) : Option User :=
  s.users.find? (fun u => u.email == email)

/-- `MongoStorage.getVerificationQuestions`: `find({ bookId })` on the
`verificationQuestions` collection. -/
def getVerificationQuestions (s : StorageState) (bookId : Nat) : List VerificationQuestion :=
  s.verificationQuestions.filter (fun q => q.bookId == bookId)

/-- `MongoStorage.getReviewsByBook`: `find({ bookId })` on `reviews` (the
denormalized user summary attached afterwards does not change the review
fields and is modelled at the route layer instead). -/
def getReviewsByBook (s : StorageState) (bookId : Nat) : List Review :=
  s.reviews.filter (fun r => r.bookId == bookId)

/-- `MongoStorage.getReview`: `findOne({ id })` on `reviews`. -/
def getReview (s : StorageState) (id : Nat) : Option Review :=
  s.reviews.find? (fun r => r.id == id)

/-- `findOneAndUpdate({ id }, { $set ... })` on `books`: update the first
document whose `id` matches, leave the rest of the list untouched. -/
def updateFirstBook (id : Nat) (f : Book → Book) : List Book → List Book
  | [] => []
  | b :: rest => if b.id == id then f b :: rest else b :: updateFirstBook id f rest

/-- The `$set` payload `{ averageRating, totalReviews }` used by the rating
recomputation in `createReview`, `updateReview` and `deleteReview`. -/
def setBookAggregates (averageRating : Rat) (totalReviews : Nat) (b : Book) : Book :=
  { b with averageRating := averageRating, totalReviews := totalReviews }

/-- `reviews.reduce((sum, review) => sum + review.rating, 0)`. -/
def sumRatings (reviews : List Review) : Int :=
  reviews.foldl (fun sum r => sum + r.rating) 0

/-- Specification-side description of the stored aggregate: the arithmetic
mean of the ratings, 0 when there are no reviews. -/
def ratingMean (reviews : List Review) : Rat :=
  if reviews.length > 0 then (sumRatings reviews : Rat) / (reviews.length : Rat) else 0

/-- `MongoStorage.createReview`: manual id, `insertOne`, then — when the book
exists — refetch the reviews of that book and store their mean rating and
count on the book document. -/
def createReview (s : StorageState) (review : InsertReview) : Review × StorageState :=
  let newId := nextId (s.reviews.map (fun r => r.id))
  let newReview : Review :=
    { id := newId, bookId := review.bookId, userId := review.userId,
      rating := review.rating, content := review.content }
  let s1 : StorageState := { s with reviews := s.reviews ++ [newReview] }
  match getBook s1 review.bookId with
  | none => (newReview, s1)
  | some book =>
    let reviews := getReviewsByBook s1 review.bookId
    let totalRating := sumRatings reviews
    let averageRating : Rat := (totalRating : Rat) / (reviews.length : Rat)
    (newReview,
      { s1 with
        books := updateFirstBook book.id
          (setBookAggregates averageRating reviews.length) s1.books })

/-- The `reviewData : Partial<Review>` accepted by the review update path:
the review fields the application mutates (rating and content). -/
structure ReviewUpdate where
  rating : Option Int
  content : Option String
deriving Repr, DecidableEq

/-- The `$set` application of a partial review update. -/
def applyReviewUpdate (u : ReviewUpdate) (r : Review) : Review :=
  { r with rating := u.rating.getD r.rating, content := u.content.getD r.content }

/-- `findOneAndUpdate({ id }, { $set ... })` on `reviews`. -/
def updateFirstReview (id : Nat) (f : Review → Review) : List Review → List Review
  | [] => []
  | r :: rest => if r.id == id then f r :: rest else r :: updateFirstReview id f rest

/-- `MongoStorage.updateReview`: `findOneAndUpdate` returning the updated
document, then recompute the mean rating and review count of the book the
updated review points at. -/
def updateReview (s : StorageState) (id : Nat) (u : ReviewUpdate) :
    Option Review × StorageState :=
  match getReview s id with
  | none => (none, s)
  | some r0 =>
    let result := applyReviewUpdate u r0
    let s1 : StorageState := { s with reviews := updateFirstReview id (applyReviewUpdate u) s.reviews }
    let reviews := getReviewsByBook s1 result.bookId
    let totalRating := sumRatings reviews
    let averageRating : Rat := (totalRating : Rat) / (reviews.length : Rat)
    (some result,
      { s1 with
        books := updateFirstBook result.bookId
          (setBookAggregates averageRating reviews.length) s1.books })

/-- `deleteOne({ id })` on `reviews`: removes the first matching document. -/
def eraseFirstReview (id : Nat) : List Review → List Review
  | [] => []
  | r :: rest => if r.id == id then rest else r :: eraseFirstReview id rest

/-- `MongoStorage.deleteReview`: look the review up, delete it, and — when
the book exists — store the recomputed mean (guarded to 0 on an empty review
set) and count on the book document. -/
def deleteReview (s : StorageState) (id : Nat) : Bool × StorageState :=
  match getReview s id with
  | none => (false, s)
  | some review =>
    let s1 : StorageState := { s with reviews := eraseFirstReview id s.reviews }
    match getBook s1 review.bookId with
    | none => (true, s1)
    | some book =>
      let reviews := getReviewsByBook s1 review.bookId
      let totalRating := sumRatings reviews
      let averageRating : Rat :=
        if reviews.length > 0 then (totalRating : Rat) / (reviews.length : Rat) else 0
      (true,
        { s1 with
          books := updateFirstBook book.id
            (setBookAggregates averageRating reviews.length) s1.books })

/-- The rating recomputation step shared by the review mutation methods
(fetch the reviews of the book, average them, `$set` the aggregate on the
book document; a missing book makes the update a no-op). -/
def recompute (s : StorageState) (bookId : Nat) : StorageState :=
  match getBook s bookId with
  | none => s
  | some book =>
    let reviews := getReviewsByBook s bookId
    let totalRating := sumRatings reviews
    let averageRating : Rat := (totalRating : Rat) / (reviews.length : Rat)
    { s with
      books := updateFirstBook book.id
        (setBookAggregates averageRating reviews.length) s.books }

/-- `deleteOne({ id })` on `books`. -/
def eraseFirstBook (id : Nat) : List Book → List Book
  | [] => []
  | b :: rest => if b.id == id then rest else b :: eraseFirstBook id rest

/-- `MongoStorage.deleteBook`: delete the book document, then `deleteMany`
every question, review, reading-list entry and liked-book entry whose
`bookId` references it; returns whether a book document was deleted. -/
def deleteBook (s : StorageState) (id : Nat) : Bool × StorageState :=
  let deleted := (getBook s id).isSome
  let s' : StorageState :=
    { s with
      books := eraseFirstBook id s.books,
      verificationQuestions := s.verificationQuestions.filter (fun q => !(q.bookId == id)),
      reviews := s.reviews.filter (fun r => !(r.bookId == id)),
      readingLists := s.readingLists.filter (fun e => !(e.bookId == id)),
      likedBooks := s.likedBooks.filter (fun e => !(e.bookId == id)) }
  (deleted, s')

/-- `MongoStorage.createUser`: manual sequential id, `isActive` forced true,
`isAdmin` defaulted from the payload, `insertOne`. -/
def createUser (s : StorageState) (user : InsertUser) : User × StorageState :=
  let newId := nextId (s.users.map (fun u => u.id))
  let newUser : User :=
    { id := newId, name := user.name, email := user.email,
      password := user.password, isAdmin := user.isAdmin, isActive := true }
  (newUser, { s with users := s.users ++ [newUser] })

/-- The express-session state the verification workflow reads and writes:
`session.userId`, `session.isAdmin` and the possibly-undefined
`session.isVerified` record mapping book ids to booleans. -/
structure SessionState where
  userId : Option Nat
  isAdmin : Bool
  isVerified : Option (Nat → Bool)

/-- The empty `{}` record the handlers install when `session.isVerified` is
undefined. -/
def emptyVerifiedMap : Nat → Bool := fun _ => false

/-- `req.session.isVerified[bookId] = true`. -/
def setVerified (m : Nat → Bool) (bookId : Nat) : Nat → Bool :=
  fun b => if b = bookId then true else m b

/-- The session write performed by the verify handler on a fully correct
submission: install `{}` when the record is undefined, then set the flag of
the book to true. -/
def markVerified (sess : SessionState) (bookId : Nat) : SessionState :=
  { sess with isVerified := some (setVerified (sess.isVerified.getD emptyVerifiedMap) bookId) }

/-- The session read performed by the reviews handler:
`req.session.isVerified && req.session.isVerified[bookId]` (false when the
record is undefined). -/
def sessionIsVerified (sess : SessionState) (bookId : Nat) : Bool :=
  match sess.isVerified with
  | some m => m bookId
  | none => false

/-- Outcome of `POST /api/books/:id/verify`. -/
inductive VerifyResult where
  /-- HTTP 404, "No verification questions found for this book". -/
  | noQuizConfigured
  /-- HTTP 400, "Must answer all questions". -/
  | incompleteAnswers
  /-- HTTP 200 with `{ verified }`. -/
  | ok (verified : Bool)
deriving Repr, DecidableEq

/-- One conjunct of the answer check
`questions.every((question, index) => answers[index] === question.correctOptionIndex)`:
position `i` matches when both sides are present and equal (a missing
`answers[index]` is `undefined` and compares unequal). -/
def answerMatches (questions : List VerificationQuestion) (answers : List Int) (i : Nat) : Bool :=
  match questions.get? i, answers.get? i with
  | some q, some a => a == q.correctOptionIndex
  | _, _ => false

/-- The full `questions.every(...)` answer check of the verify handler. -/
def allCorrect (questions : List VerificationQuestion) (answers : List Int) : Bool :=
  (List.range questions.length).all (answerMatches questions answers)

/-- The `POST /api/books/:id/verify` handler: 404 when the book has no
questions, 400 when the answer count differs from the question count,
otherwise a 200 result carrying the all-or-nothing evaluation; the session
flag of the book is set exactly on a fully correct submission. -/
def verifyPost (s : StorageState) (sess : SessionState) (bookId : Nat) (answers : List Int) :
    VerifyResult × SessionState :=
  let questions := getVerificationQuestions s bookId
  if questions.length = 0 then (.noQuizConfigured, sess)
  else if answers.length ≠ questions.length then (.incompleteAnswers, sess)
  else if allCorrect questions answers then (.ok true, markVerified sess bookId)
  else (.ok false, sess)

/-- A JSON value as far as `reviewWithVerificationSchema` is concerned. -/
inductive Js where
  | num (n : Int)
  | str (s : String)
  | bool (b : Bool)
  | undef
deriving Repr, DecidableEq

/-- The client-supplied part of a review submission body (`bookId` and
`userId` are overwritten by the route before parsing). -/
structure RawReviewBody where
  rating : Js
  content : Js
  verified : Js
deriving Repr, DecidableEq

/-- A body accepted by `reviewWithVerificationSchema.parse`. -/
structure ParsedReviewBody where
  bookId : Nat
  userId : Nat
  rating : Int
  content : String
  verified : Bool
deriving Repr, DecidableEq

/-- `reviewWithVerificationSchema.parse({...req.body, bookId, userId})`:
`insertReviewSchema` extended with a boolean `verified`.  The schema checks
that `rating` is a number, `content` a string and `verified` a boolean; it
imposes no range constraint on `rating`. -/
def parseReviewBody (bookId userId : Nat) (raw : RawReviewBody) : Option ParsedReviewBody :=
  match raw.rating, raw.content, raw.verified with
  | .num r, .str c, .bool v =>
    some { bookId := bookId, userId := userId, rating := r, content := c, verified := v }
  | _, _, _ => none

/-- Outcome of `POST /api/books/:id/reviews`. -/
inductive ReviewPostOutcome where
  /-- HTTP 400, zod validation error. -/
  | validationError
  /-- HTTP 403, "You must correctly answer the verification questions ...". -/
  | notVerified
  /-- HTTP 201 with the created review. -/
  | created (review : Review)
deriving Repr, DecidableEq

/-- The `POST /api/books/:id/reviews` handler (behind `requireAuth`): read
the session verification flag, parse the body, reject with 403 when neither
the inline `verified` flag nor the session flag is set, otherwise persist
through `createReview`. -/
def reviewsPost (s : StorageState) (sess : SessionState) (bookId userId : Nat)
    (raw : RawReviewBody) : ReviewPostOutcome × StorageState :=
  let isVerified := sessionIsVerified sess bookId
  match parseReviewBody bookId userId raw with
  | none => (.validationError, s)
  | some body =>
    if !body.verified && !isVerified then (.notVerified, s)
    else
      let (newReview, s') := createReview s
        { bookId := body.bookId, userId := body.userId,
          rating := body.rating, content := body.content }
      (.created newReview, s')

/-- A verification question as returned to clients by
`GET /api/books/:id/questions`: the `correctOptionIndex` field is removed
by destructuring before the response is sent. -/
structure PublicQuestion where
  id : Nat
  bookId : Nat
  question : String
  options : List String
deriving Repr, DecidableEq

/-- `({ correctOptionIndex, ...rest }) => rest`. -/
def sanitizeQuestion (q : VerificationQuestion) : PublicQuestion :=
  { id := q.id, bookId := q.bookId, question := q.question, options := q.options }

/-- The `GET /api/books/:id/questions` handler (no auth middleware): fetch
the questions of the book and strip the correct option index from each. -/
def questionsGet (s : StorageState) (bookId : Nat) : List PublicQuestion :=
  (getVerificationQuestions s bookId).map sanitizeQuestion

/-- Rewrites the correct option index of every stored question (used to
state that the public listing is independent of the correct answers). -/
def setCorrectOption (f : VerificationQuestion → Int) (q : VerificationQuestion) :
    VerificationQuestion :=
  { q with correctOptionIndex := f q }

/-- Outcome of `POST /api/auth/login`. -/
inductive LoginOutcome where
  /-- HTTP 200; the session receives this user id and admin flag. -/
  | success (userId : Nat) (isAdmin : Bool)
  /-- HTTP 401, "Invalid email or password". -/
  | invalidCredentials
deriving Repr, DecidableEq

/-- The `POST /api/auth/login` handler: the hardcoded
`admin@gmail.com` / `admin123` pair always succeeds as an administrator
(creating the account when it is missing, and ignoring the stored password
when it exists); any other pair succeeds exactly when a stored user with
that email has that exact password. -/
def loginPost (s : StorageState) (email password : String) : LoginOutcome × StorageState :=
  let user? := getUserByEmail s email
  if email = "admin@gmail.com" ∧ password = "admin123" then
    match user? with
    | none =>
      let (newAdmin, s') := createUser s
        { name := "Admin User", email := "admin@gmail.com",
          password := "admin123", isAdmin := true }
      (.success newAdmin.id true, s')
    | some user => (.success user.id true, s)
  else
    match user? with
    | none => (.invalidCredentials, s)
    | some user =>
      if user.password = password then (.success user.id user.isAdmin, s)
      else (.invalidCredentials, s)

/-- A request of the verification-gated review workflow, as it affects one
session: a quiz submission (`POST /api/books/:id/verify`) or a review
submission (`POST /api/books/:id/reviews`); the storage state and the
request payload are carried by the step. -/
inductive ApiStep where
  | verify (s : StorageState) (bookId : Nat) (answers : List Int)
  | review (s : StorageState) (bookId userId : Nat) (raw : RawReviewBody)

/-- Effect of one workflow request on the session: the verify handler may
set a verification flag; the reviews handler performs no session write. -/
def sessionStep (sess : SessionState) : ApiStep → SessionState
  | .verify s bookId answers => (verifyPost s sess bookId answers).2
  | .review _ _ _ _ => sess



/-! ## Concrete example data (spec scenario: three questions with correct
options [1, 0, 2] on book 1) -/

def exQuestions : List VerificationQuestion :=
  [{ id := 1, bookId := 1, question := "q1", options := ["a", "b", "c", "d"], correctOptionIndex := 1 },
   { id := 2, bookId := 1, question := "q2", options := ["a", "b", "c", "d"], correctOptionIndex := 0 },
   { id := 3, bookId := 1, question := "q3", options := ["a", "b", "c", "d"], correctOptionIndex := 2 }]

def exBook : Book :=
  { id := 1, title := "Dune", author := "Frank Herbert", publisher := none,
    publishedDate := none, description := "desc", category := "SciFi",
    isbn := none, coverImage := none, averageRating := 0, totalReviews := 0 }

def exStore : StorageState :=
  { users := [], books := [exBook], verificationQuestions := exQuestions,
    reviews := [], readingLists := [], likedBooks := [] }

def exSession : SessionState := { userId := some 7, isAdmin := false, isVerified := none }

def exSessionVerified : SessionState :=
  { userId := some 7, isAdmin := false, isVerified := some (setVerified emptyVerifiedMap 1) }

/-- The `InsertUser` payload of the hardcoded admin-creation path of the
login handler. -/
def adminInsert : InsertUser :=
  { name := "Admin User", email := "admin@gmail.com", password := "admin123", isAdmin := true }

def exReviewOther : Review := { id := 2, bookId := 2, userId := 5, rating := 4, content := "k" }

def exStore9 : StorageState :=
  { users := [], books := [exBook],
    verificationQuestions := exQuestions,
    reviews := [{ id := 1, bookId := 1, userId := 5, rating := 5, content := "g" }, exReviewOther],
    readingLists := [{ id := 1, userId := 5, bookId := 1, progress := 10 }],
    likedBooks := [{ id := 1, userId := 5, bookId := 1 }] }

def exAdminStale : User :=
  { id := 1, name := "Admin User", email := "admin@gmail.com",
    password := "something-else", isAdmin := true, isActive := true }

def exBob : User :=
  { id := 2, name := "Bob", email := "bob@x.com", password := "pw", isAdmin := false, isActive := true }

def exStore10 : StorageState :=
  { users := [exAdminStale, exBob], books := [], verificationQuestions := [],
    reviews := [], readingLists := [], likedBooks := [] }

def exStore10Empty : StorageState :=
  { users := [], books := [], verificationQuestions := [],
    reviews := [], readingLists := [], likedBooks := [] }

/-- A store whose only book (id 1) has no configured quiz questions. -/
def exStoreNoQuiz : StorageState :=
  { users := [], books := [exBook], verificationQuestions := [],
    reviews := [], readingLists := [], likedBooks := [] }

/-- A review body with the inline verified flag false. -/
def exRawUnverified : RawReviewBody :=
  { rating := Js.num 4, content := Js.str "great", verified := Js.bool false }

/-- A store with book 1 carrying two reviews (ratings 5 and 3) and
aggregates already consistent. -/
def exStore6 : StorageState :=
  { users := [],
    books := [{ id := 1, title := "Dune", author := "Frank Herbert", publisher := none,
                publishedDate := none, description := "desc", category := "SciFi",
                isbn := none, coverImage := none, averageRating := 4, totalReviews := 2 }],
    verificationQuestions := [],
    reviews := [{ id := 1, bookId := 1, userId := 11, rating := 5, content := "x" },
                { id := 2, bookId := 1, userId := 12, rating := 3, content := "y" }],
    readingLists := [], likedBooks := [] }

/-- A rating-4 review submission for book 1. -/
def exIns6 : InsertReview := { bookId := 1, userId := 13, rating := 4, content := "z" }

/-- The store after creating the rating-4 review: ratings [5, 3, 4]. -/
def exStore6Full : StorageState := (createReview exStore6 exIns6).2

/-! ## Helper lemmas -/

theorem getBook_id_eq {s : StorageState} {id : Nat} {b : Book}
    (h : getBook s id = some b) : b.id = id := by
  have hp := List.find?_some h
  simpa using hp

theorem allCorrect_iff (qs : List VerificationQuestion) (ans : List Int)
    (hlen : ans.length = qs.length) :
    allCorrect qs ans = true ↔
      ∀ i, i < qs.length →
        ans.get? i = (qs.get? i).map (fun q => q.correctOptionIndex) := by
  unfold allCorrect
  rw [List.all_eq_true]
  constructor
  · intro h i hi
    have hm := h i (List.mem_range.mpr hi)
    have hia : i < ans.length := hlen ▸ hi
    obtain ⟨q, hq⟩ : ∃ q, qs.get? i = some q := ⟨qs.get ⟨i, hi⟩, List.get?_eq_get hi⟩
    obtain ⟨a, ha⟩ : ∃ a, ans.get? i = some a := ⟨ans.get ⟨i, hia⟩, List.get?_eq_get hia⟩
    rw [answerMatches, hq, ha] at hm
    rw [ha, hq]
    simp only [Option.map_some']
    have : a = q.correctOptionIndex := by simpa using hm
    rw [this]
  · intro h i hi
    have hi' := List.mem_range.mp hi
    have hmap := h i hi'
    rw [answerMatches]
    obtain ⟨q, hq⟩ : ∃ q, qs.get? i = some q := ⟨qs.get ⟨i, hi'⟩, List.get?_eq_get hi'⟩
    rw [hq] at hmap ⊢
    simp only [Option.map_some'] at hmap
    rw [hmap]
    simp

/-! ## Claim theorems -/

/-- Claim C3: for a book with a non-empty question list and an answer vector
of the same length, the verify endpoint reports `verified: true` iff every
position of the answer vector equals the correct option index of the
question at that position (in stored order), and replacing any single
position by a non-matching value yields `verified: false`. -/
theorem claim3_all_or_nothing (s : StorageState) (sess : SessionState) (bookId : Nat)
    (answers : List Int)
    (hne : getVerificationQuestions s bookId ≠ [])
    (hlen : answers.length = (getVerificationQuestions s bookId).length) :
    ((verifyPost s sess bookId answers).1 = .ok true ↔
      ∀ i, i < (getVerificationQuestions s bookId).length →
        answers.get? i =
          ((getVerificationQuestions s bookId).get? i).map (fun q => q.correctOptionIndex)) ∧
    (∀ i a0, i < (getVerificationQuestions s bookId).length →
      some a0 ≠ ((getVerificationQuestions s bookId).get? i).map (fun q => q.correctOptionIndex) →
      (verifyPost s sess bookId (answers.set i a0)).1 = .ok false) := by
  set qs := getVerificationQuestions s bookId with hqs
  have hlen0 : ¬ qs.length = 0 := fun h => hne (List.eq_nil_of_length_eq_zero h)
  have hcomplete : ∀ ans : List Int, ans.length = qs.length →
      verifyPost s sess bookId ans =
        (if allCorrect qs ans then (.ok true, markVerified sess bookId) else (.ok false, sess)) := by
    intro ans hl
    rw [verifyPost]
    simp only [← hqs]
    rw [if_neg hlen0, if_neg (by simp [hl])]
  constructor
  · rw [hcomplete answers hlen]
    by_cases hall : allCorrect qs answers = true
    · rw [if_pos hall]
      simp only [true_iff]
      exact (allCorrect_iff qs answers hlen).mp hall
    · rw [if_neg hall]
      constructor
      · intro h
        cases h
      · intro h
        exact absurd ((allCorrect_iff qs answers hlen).mpr h) hall
  · intro i a0 hi hne0
    have hlen' : (answers.set i a0).length = qs.length := by
      rw [List.length_set, hlen]
    have hget : (answers.set i a0).get? i = some a0 := by
      have hia : i < answers.length := by rw [hlen]; exact hi
      obtain ⟨a, ha⟩ : ∃ a, answers.get? i = some a := ⟨answers.get ⟨i, hia⟩, List.get?_eq_get hia⟩
      rw [List.get?_set_eq, ha]
      rfl
    have hnc : ¬ allCorrect qs (answers.set i a0) = true := by
      intro hall
      have := (allCorrect_iff qs (answers.set i a0) hlen').mp hall i hi
      rw [hget] at this
      exact hne0 this
    rw [hcomplete (answers.set i a0) hlen', if_neg hnc]

/-- Witness for C3 at the scenario of the spec: book 1 carries correct
options [1, 0, 2]; submitting [1, 0, 2] verifies, and changing position 2 to
the non-matching value 1 yields `verified: false`. -/
theorem claim3_witness :
    getVerificationQuestions exStore 1 ≠ [] ∧
    [(1 : Int), 0, 2].length = (getVerificationQuestions exStore 1).length ∧
    (verifyPost exStore exSession 1 [1, 0, 2]).1 = .ok true ∧
    (verifyPost exStore exSession 1 ([(1 : Int), 0, 2].set 2 1)).1 = .ok false :=
  ⟨by decide, by decide,
   ((claim3_all_or_nothing exStore exSession 1 [1, 0, 2] (by decide) (by decide)).1).mpr
     (by decide),
   (claim3_all_or_nothing exStore exSession 1 [1, 0, 2] (by decide) (by decide)).2 2 1
     (by decide) (by decide)⟩

/-- Claim C4: the verify endpoint distinguishes three outcomes — a book with
no configured questions fails with the 404 `noQuizConfigured` kind without
evaluating and without touching the session, an answer count differing from
the question count fails with the 400 `incompleteAnswers` kind, and a
complete submission with at least one wrong answer yields the 200
`ok false` result; the three kinds are pairwise distinct. -/
theorem claim4_error_kinds (s : StorageState) (sess : SessionState) (bookId : Nat)
    (answers : List Int) :
    (getVerificationQuestions s bookId = [] →
      verifyPost s sess bookId answers = (.noQuizConfigured, sess)) ∧
    (getVerificationQuestions s bookId ≠ [] →
      answers.length ≠ (getVerificationQuestions s bookId).length →
      verifyPost s sess bookId answers = (.incompleteAnswers, sess)) ∧
    (getVerificationQuestions s bookId ≠ [] →
      answers.length = (getVerificationQuestions s bookId).length →
      allCorrect (getVerificationQuestions s bookId) answers = false →
      verifyPost s sess bookId answers = (.ok false, sess)) ∧
    (VerifyResult.incompleteAnswers ≠ VerifyResult.ok false ∧
      VerifyResult.noQuizConfigured ≠ VerifyResult.ok false ∧
      VerifyResult.noQuizConfigured ≠ VerifyResult.incompleteAnswers) := by
  refine ⟨?_, ?_, ?_, by decide⟩
  · intro h
    rw [verifyPost]
    simp [h]
  · intro hne hlen
    have hlen0 : ¬ (getVerificationQuestions s bookId).length = 0 :=
      fun h => hne (List.eq_nil_of_length_eq_zero h)
    rw [verifyPost]
    rw [if_neg hlen0, if_pos hlen]
  · intro hne hlen hwrong
    have hlen0 : ¬ (getVerificationQuestions s bookId).length = 0 :=
      fun h => hne (List.eq_nil_of_length_eq_zero h)
    rw [verifyPost]
    rw [if_neg hlen0, if_neg (by simp [hlen]),
      if_neg (by rw [hwrong]; exact Bool.false_ne_true)]

/-- Witness for C4: book 2 has no questions (404); on book 1 an incomplete
vector [1, 0] gives the 400 kind and the complete wrong vector [1, 0, 1]
gives the `ok false` result. -/
theorem claim4_witness :
    verifyPost exStore exSession 2 [1, 0, 2] = (.noQuizConfigured, exSession) ∧
    verifyPost exStore exSession 1 [1, 0] = (.incompleteAnswers, exSession) ∧
    verifyPost exStore exSession 1 [1, 0, 1] = (.ok false, exSession) :=
  ⟨(claim4_error_kinds exStore exSession 2 [1, 0, 2]).1 (by decide),
   (claim4_error_kinds exStore exSession 1 [1, 0]).2.1 (by decide) (by decide),
   (claim4_error_kinds exStore exSession 1 [1, 0, 1]).2.2.1 (by decide) (by decide) (by decide)⟩

theorem sanitize_filter_map (f : VerificationQuestion → Int) (bookId : Nat)
    (l : List VerificationQuestion) :
    ((l.map (setCorrectOption f)).filter (fun q => q.bookId == bookId)).map sanitizeQuestion
      = (l.filter (fun q => q.bookId == bookId)).map sanitizeQuestion := by
  induction l with
  | nil => rfl
  | cons q rest ih =>
    have hsan : sanitizeQuestion (setCorrectOption f q) = sanitizeQuestion q := rfl
    have hcond : ((setCorrectOption f q).bookId == bookId) = (q.bookId == bookId) := rfl
    simp only [List.map_cons, List.filter_cons, hcond]
    cases hb : (q.bookId == bookId)
    · rw [if_neg Bool.false_ne_true, if_neg Bool.false_ne_true, ih]
    · rw [if_pos rfl, if_pos rfl, List.map_cons, List.map_cons, hsan, ih]

/-- Claim C5: the public question listing strips the correct option index —
its output is the sanitized projection of the stored questions, and it is
unchanged under an arbitrary rewrite of every stored correct option index,
for every caller (the route has no auth middleware and takes no role
input). -/
theorem claim5_quiz_secrecy (s : StorageState) (bookId : Nat)
    (f : VerificationQuestion → Int) :
    questionsGet
        { s with verificationQuestions := s.verificationQuestions.map (setCorrectOption f) }
        bookId
      = questionsGet s bookId ∧
    questionsGet s bookId = (getVerificationQuestions s bookId).map sanitizeQuestion :=
  ⟨sanitize_filter_map f bookId s.verificationQuestions, rfl⟩

/-- Witness for C5: rewriting every correct option index of the example
store to 3 leaves the public listing of book 1 unchanged. -/
theorem claim5_witness :
    questionsGet
        { exStore with
          verificationQuestions := exStore.verificationQuestions.map (setCorrectOption (fun _ => 3)) }
        1
      = questionsGet exStore 1 :=
  (claim5_quiz_secrecy exStore 1 (fun _ => 3)).1

theorem sessionIsVerified_eq_getD (sess : SessionState) (b : Nat) :
    sessionIsVerified sess b = (sess.isVerified.getD emptyVerifiedMap) b := by
  cases h : sess.isVerified <;> simp [sessionIsVerified, h, emptyVerifiedMap]

theorem markVerified_mono {sess : SessionState} {b : Nat} (bid : Nat)
    (h : sessionIsVerified sess b = true) :
    sessionIsVerified (markVerified sess bid) b = true := by
  rw [sessionIsVerified_eq_getD] at h
  show setVerified (sess.isVerified.getD emptyVerifiedMap) bid b = true
  rw [setVerified]
  by_cases hb : b = bid
  · rw [if_pos hb]
  · rw [if_neg hb]
    exact h

theorem sessionStep_mono {sess : SessionState} {b : Nat} (st : ApiStep)
    (h : sessionIsVerified sess b = true) :
    sessionIsVerified (sessionStep sess st) b = true := by
  cases st with
  | review s bid uid raw => exact h
  | verify s bid answers =>
    show sessionIsVerified (verifyPost s sess bid answers).2 b = true
    rw [verifyPost]
    split
    · exact h
    · split
      · exact h
      · split
        · exact markVerified_mono bid h
        · exact h

/-- Claim C8: session verification is monotonic — once the session flag of a
book is true it stays true across any sequence of further verify and review
requests (failed, malformed, or for other books), and a fully correct quiz
submission sets it. -/
theorem claim8_monotonic_verification (sess : SessionState) (bookId : Nat)
    (steps : List ApiStep) (s : StorageState) (answers : List Int) :
    (sessionIsVerified sess bookId = true →
      sessionIsVerified (steps.foldl sessionStep sess) bookId = true) ∧
    ((verifyPost s sess bookId answers).1 = .ok true →
      sessionIsVerified (verifyPost s sess bookId answers).2 bookId = true) := by
  constructor
  · intro h
    induction steps generalizing sess with
    | nil => exact h
    | cons st rest ih =>
      exact ih (sessionStep sess st) (sessionStep_mono st h)
  · intro h
    rw [verifyPost] at h ⊢
    split at h
    · cases h
    · split at h
      · cases h
      · rename_i h1 h2
        split at h
        · rename_i h3
          simp only [if_neg h1, if_neg h2, if_pos h3]
          show sessionIsVerified (markVerified sess bookId) bookId = true
          show setVerified (sess.isVerified.getD emptyVerifiedMap) bookId bookId = true
          rw [setVerified, if_pos rfl]
        · cases h

/-- Witness for C8: a session verified for book 1 stays verified after a
failed attempt, a malformed attempt and a review request; and a fully
correct submission on a fresh session sets the flag. -/
theorem claim8_witness :
    sessionIsVerified exSessionVerified 1 = true ∧
    sessionIsVerified
        (([ApiStep.verify exStore 1 [9, 9, 9], ApiStep.verify exStore 1 [1, 0],
           ApiStep.review exStore 1 7 { rating := Js.num 4, content := Js.str "ok", verified := Js.bool false }].foldl
          sessionStep exSessionVerified)) 1 = true ∧
    (verifyPost exStore exSession 1 [1, 0, 2]).1 = .ok true ∧
    sessionIsVerified (verifyPost exStore exSession 1 [1, 0, 2]).2 1 = true :=
  ⟨by decide,
   (claim8_monotonic_verification exSessionVerified 1
     [ApiStep.verify exStore 1 [9, 9, 9], ApiStep.verify exStore 1 [1, 0],
      ApiStep.review exStore 1 7 { rating := Js.num 4, content := Js.str "ok", verified := Js.bool false }]
     exStore [1, 0, 2]).1 (by decide),
   by decide,
   (claim8_monotonic_verification exSession 1 [] exStore [1, 0, 2]).2 (by decide)⟩

/-- Claim C9: deleting a book removes every verification question, review,
reading-list entry and liked-book entry referencing that book id, keeps
exactly the entities referencing other books, and reports whether a book
document was deleted. -/
theorem claim9_delete_cascade (s : StorageState) (id : Nat) :
    (∀ q : VerificationQuestion,
      q ∈ (deleteBook s id).2.verificationQuestions ↔
        q ∈ s.verificationQuestions ∧ q.bookId ≠ id) ∧
    (∀ r : Review, r ∈ (deleteBook s id).2.reviews ↔ r ∈ s.reviews ∧ r.bookId ≠ id) ∧
    (∀ e : ReadingListEntry,
      e ∈ (deleteBook s id).2.readingLists ↔ e ∈ s.readingLists ∧ e.bookId ≠ id) ∧
    (∀ e : LikedBookEntry,
      e ∈ (deleteBook s id).2.likedBooks ↔ e ∈ s.likedBooks ∧ e.bookId ≠ id) ∧
    (deleteBook s id).1 = (getBook s id).isSome := by
  refine ⟨?_, ?_, ?_, ?_, rfl⟩ <;>
    · intro x
      rw [deleteBook]
      simp [List.mem_filter]



/-- Witness for C9: after deleting book 1, a review of book 2 remains, a
review of book 1 does not, and the deletion is reported. -/
theorem claim9_witness :
    exReviewOther ∈ (deleteBook exStore9 1).2.reviews ∧
    ¬ ({ id := 1, bookId := 1, userId := 5, rating := 5, content := "g" } : Review)
        ∈ (deleteBook exStore9 1).2.reviews ∧
    (deleteBook exStore9 1).1 = true :=
  ⟨((claim9_delete_cascade exStore9 1).2.1 exReviewOther).mpr ⟨by decide, by decide⟩,
   fun h => (((claim9_delete_cascade exStore9 1).2.1 _).mp h).2 rfl,
   by decide⟩

/-- Claim C10: the login endpoint has a hardcoded bypass — the pair
admin@gmail.com / admin123 always succeeds with an administrator session,
whatever password is stored for that account, and creates the admin user on
the fly when it is missing; every other (email, password) pair succeeds
exactly when a stored user with that email has exactly that password. -/
theorem claim10_login_bypass (s : StorageState) (email password : String) (u : User) :
    (email = "admin@gmail.com" → password = "admin123" →
      getUserByEmail s email = some u →
      loginPost s email password = (.success u.id true, s)) ∧
    (email = "admin@gmail.com" → password = "admin123" →
      getUserByEmail s email = none →
      (loginPost s email password).1 = .success (createUser s adminInsert).1.id true ∧
        (createUser s adminInsert).1 ∈ (loginPost s email password).2.users) ∧
    (¬ (email = "admin@gmail.com" ∧ password = "admin123") →
      ((∃ uid adm, (loginPost s email password).1 = .success uid adm) ↔
        ∃ u2, getUserByEmail s email = some u2 ∧ u2.password = password) ∧
      (loginPost s email password).2 = s) := by
  refine ⟨?_, ?_, ?_⟩
  · intro he hp hu
    rw [loginPost]
    rw [if_pos ⟨he, hp⟩, hu]
  · intro he hp hu
    rw [loginPost, if_pos ⟨he, hp⟩, hu]
    refine ⟨rfl, ?_⟩
    rw [createUser]
    exact List.mem_append_right _ (List.mem_singleton.mpr rfl)
  · intro hn
    rw [loginPost, if_neg hn]
    cases hu : getUserByEmail s email with
    | none =>
      dsimp only
      refine ⟨⟨?_, ?_⟩, rfl⟩
      · rintro ⟨uid, adm, h⟩
        cases h
      · rintro ⟨u2, h2, _⟩
        cases h2
    | some u2 =>
      dsimp only
      by_cases hpw : u2.password = password
      · rw [if_pos hpw]
        exact ⟨⟨fun _ => ⟨u2, rfl, hpw⟩, fun _ => ⟨u2.id, u2.isAdmin, rfl⟩⟩, rfl⟩
      · rw [if_neg hpw]
        refine ⟨⟨?_, ?_⟩, rfl⟩
        · rintro ⟨uid, adm, h⟩
          cases h
        · rintro ⟨u3, h3, hp3⟩
          cases h3
          exact absurd hp3 hpw





/-- Witness for C10: the bypass succeeds although the stored admin password
is different; with no users at all it succeeds after creating the admin; a
regular pair succeeds with the exact stored password and fails otherwise. -/
theorem claim10_witness :
    loginPost exStore10 "admin@gmail.com" "admin123" = (.success 1 true, exStore10) ∧
    (loginPost exStore10Empty "admin@gmail.com" "admin123").1 = .success 1 true ∧
    (∃ uid adm, (loginPost exStore10 "bob@x.com" "pw").1 = .success uid adm) ∧
    (loginPost exStore10 "bob@x.com" "wrong").1 = .invalidCredentials :=
  ⟨(claim10_login_bypass exStore10 "admin@gmail.com" "admin123" exAdminStale).1 rfl rfl
     (by decide),
   ((claim10_login_bypass exStore10Empty "admin@gmail.com" "admin123" exAdminStale).2.1 rfl rfl
     (by decide)).1,
   ((claim10_login_bypass exStore10 "bob@x.com" "pw" exAdminStale).2.2
     (by simp)).1.mpr ⟨exBob, by decide, rfl⟩,
   by decide⟩

theorem createReview_reviews_eq (s : StorageState) (ins : InsertReview) :
    (createReview s ins).2.reviews = s.reviews ++ [(createReview s ins).1] := by
  rw [createReview]
  split <;> rfl

theorem createReview_fst (s : StorageState) (ins : InsertReview) :
    (createReview s ins).1 =
      { id := nextId (s.reviews.map (fun r => r.id)), bookId := ins.bookId,
        userId := ins.userId, rating := ins.rating, content := ins.content } := by
  rw [createReview]
  split <;> rfl

/-- Counterexample to C1 as stated: book 1 has zero configured quiz
questions, the inline flag is false and the session holds no verification,
so the zero-questions disjunct of the claimed acceptance condition holds —
yet the handler rejects with the 403 `notVerified` outcome and persists
nothing. -/
theorem claim1_counterexample :
    getVerificationQuestions exStoreNoQuiz 1 = [] ∧
    sessionIsVerified exSession 1 = false ∧
    reviewsPost exStoreNoQuiz exSession 1 7 exRawUnverified = (.notVerified, exStoreNoQuiz) := by
  decide

/-- Characterization of the review admission gate shared by the C1 and C2
developments: acceptance iff inline flag or session flag, 403 leaves storage
unchanged, acceptance persists the parsed review. -/
theorem reviewsPost_gate_spec (s : StorageState) (sess : SessionState)
    (bookId userId : Nat) (r : Int) (c : String) (v : Bool) :
    ((∃ rev, (reviewsPost s sess bookId userId
        { rating := Js.num r, content := Js.str c, verified := Js.bool v }).1 = .created rev) ↔
      (v = true ∨ sessionIsVerified sess bookId = true)) ∧
    ((reviewsPost s sess bookId userId
        { rating := Js.num r, content := Js.str c, verified := Js.bool v }).1 = .notVerified ↔
      (v = false ∧ sessionIsVerified sess bookId = false)) ∧
    ((reviewsPost s sess bookId userId
        { rating := Js.num r, content := Js.str c, verified := Js.bool v }).1 = .notVerified →
      (reviewsPost s sess bookId userId
        { rating := Js.num r, content := Js.str c, verified := Js.bool v }).2 = s) ∧
    (∀ rev, (reviewsPost s sess bookId userId
        { rating := Js.num r, content := Js.str c, verified := Js.bool v }).1 = .created rev →
      rev ∈ (reviewsPost s sess bookId userId
        { rating := Js.num r, content := Js.str c, verified := Js.bool v }).2.reviews ∧
      rev.bookId = bookId ∧ rev.userId = userId ∧ rev.rating = r ∧ rev.content = c) := by
  rw [reviewsPost]
  have hparse : parseReviewBody bookId userId
      { rating := Js.num r, content := Js.str c, verified := Js.bool v } =
      some { bookId := bookId, userId := userId, rating := r, content := c, verified := v } := rfl
  rw [hparse]
  dsimp only
  cases v with
  | false =>
    cases hb : sessionIsVerified sess bookId with
    | false =>
      rw [if_pos (by decide)]
      refine ⟨⟨?_, ?_⟩, ⟨fun _ => ⟨rfl, rfl⟩, fun _ => rfl⟩, fun _ => rfl, ?_⟩
      · rintro ⟨rev, h⟩
        cases h
      · rintro (h | h) <;> cases h
      · intro rev h
        cases h
    | true =>
      rw [if_neg (by decide)]
      cases hcr : createReview s { bookId := bookId, userId := userId, rating := r, content := c } with
      | mk nr s2 =>
        dsimp only
        have hmem : nr ∈ s2.reviews := by
          have h1 := createReview_reviews_eq s { bookId := bookId, userId := userId, rating := r, content := c }
          rw [hcr] at h1
          dsimp only at h1
          rw [h1]
          exact List.mem_append_right _ (List.mem_singleton.mpr rfl)
        have hfst := createReview_fst s { bookId := bookId, userId := userId, rating := r, content := c }
        rw [hcr] at hfst
        dsimp only at hfst
        refine ⟨⟨fun _ => Or.inr rfl, fun _ => ⟨nr, rfl⟩⟩, ⟨?_, ?_⟩, ?_, ?_⟩
        · intro h
          cases h
        · rintro ⟨-, h⟩
          cases h
        · intro h
          cases h
        · intro rev h
          cases h
          rw [hfst]
          rw [hfst] at hmem
          exact ⟨hmem, rfl, rfl, rfl, rfl⟩
  | true =>
    rw [if_neg (by simp)]
    cases hcr : createReview s { bookId := bookId, userId := userId, rating := r, content := c } with
    | mk nr s2 =>
      dsimp only
      have hmem : nr ∈ s2.reviews := by
        have h1 := createReview_reviews_eq s { bookId := bookId, userId := userId, rating := r, content := c }
        rw [hcr] at h1
        dsimp only at h1
        rw [h1]
        exact List.mem_append_right _ (List.mem_singleton.mpr rfl)
      have hfst := createReview_fst s { bookId := bookId, userId := userId, rating := r, content := c }
      rw [hcr] at hfst
      dsimp only at hfst
      refine ⟨⟨fun _ => Or.inl rfl, fun _ => ⟨nr, rfl⟩⟩, ⟨?_, ?_⟩, ?_, ?_⟩
      · intro h
        cases h
      · rintro ⟨h, -⟩
        cases h
      · intro h
        cases h
      · intro rev h
        cases h
        rw [hfst]
        rw [hfst] at hmem
        exact ⟨hmem, rfl, rfl, rfl, rfl⟩

/-- Claim C1 (amended): for a well-typed submission the gate accepts — and
persists the review with a 201 — iff the inline verified flag is true or the
session verification flag for the book is true; the configured question
count is not consulted, and a rejected submission leaves storage
unchanged. -/
theorem claim1_admission_gate (s : StorageState) (sess : SessionState)
    (bookId userId : Nat) (r : Int) (c : String) (v : Bool) :
    ((∃ rev, (reviewsPost s sess bookId userId
        { rating := Js.num r, content := Js.str c, verified := Js.bool v }).1 = .created rev) ↔
      (v = true ∨ sessionIsVerified sess bookId = true)) ∧
    ((reviewsPost s sess bookId userId
        { rating := Js.num r, content := Js.str c, verified := Js.bool v }).1 = .notVerified ↔
      (v = false ∧ sessionIsVerified sess bookId = false)) ∧
    ((reviewsPost s sess bookId userId
        { rating := Js.num r, content := Js.str c, verified := Js.bool v }).1 = .notVerified →
      (reviewsPost s sess bookId userId
        { rating := Js.num r, content := Js.str c, verified := Js.bool v }).2 = s) ∧
    (∀ rev, (reviewsPost s sess bookId userId
        { rating := Js.num r, content := Js.str c, verified := Js.bool v }).1 = .created rev →
      rev ∈ (reviewsPost s sess bookId userId
        { rating := Js.num r, content := Js.str c, verified := Js.bool v }).2.reviews ∧
      rev.bookId = bookId ∧ rev.userId = userId ∧ rev.rating = r ∧ rev.content = c) :=
  reviewsPost_gate_spec s sess bookId userId r c v

/-- Witness for the amended C1 at a concrete input: with no questions, no
session flag and inline flag false the outcome is the 403 kind and the store
is unchanged; flipping the inline flag to true yields a created review. -/
theorem claim1_witness :
    (reviewsPost exStoreNoQuiz exSession 1 7
      { rating := Js.num 4, content := Js.str "great", verified := Js.bool false }).1 = .notVerified ∧
    (reviewsPost exStoreNoQuiz exSession 1 7
      { rating := Js.num 4, content := Js.str "great", verified := Js.bool false }).2 = exStoreNoQuiz ∧
    (∃ rev, (reviewsPost exStoreNoQuiz exSession 1 7
      { rating := Js.num 4, content := Js.str "great", verified := Js.bool true }).1 = .created rev) :=
  ⟨((claim1_admission_gate exStoreNoQuiz exSession 1 7 4 "great" false).2.1).mpr
     ⟨rfl, by decide⟩,
   (claim1_admission_gate exStoreNoQuiz exSession 1 7 4 "great" false).2.2.1
     (((claim1_admission_gate exStoreNoQuiz exSession 1 7 4 "great" false).2.1).mpr
       ⟨rfl, by decide⟩),
   ((claim1_admission_gate exStoreNoQuiz exSession 1 7 4 "great" true).1).mpr (Or.inl rfl)⟩

/-- Counterexample to C2 as stated: a submission with the integer rating 6
(outside 1..5) is not rejected with a 400 validation error — it is accepted
with a 201 and the review is persisted with rating 6. -/
theorem claim2_counterexample :
    (reviewsPost exStoreNoQuiz exSession 1 7
        { rating := Js.num 6, content := Js.str "great", verified := Js.bool true }).1 =
      .created { id := 1, bookId := 1, userId := 7, rating := 6, content := "great" } ∧
    ({ id := 1, bookId := 1, userId := 7, rating := 6, content := "great" } : Review) ∈
      (reviewsPost exStoreNoQuiz exSession 1 7
        { rating := Js.num 6, content := Js.str "great", verified := Js.bool true }).2.reviews := by
  decide

/-- Claim C2 (amended): the review schema checks only that the rating is a
number — no 1..5 range check exists.  A submission with any integer rating,
inside or outside 1..5, is never rejected with a 400 validation error; when
the gate admits it, the review is persisted carrying exactly that rating. -/
theorem claim2_no_rating_range_check (s : StorageState) (sess : SessionState)
    (bookId userId : Nat) (r : Int) (c : String) :
    (∀ v : Bool, (reviewsPost s sess bookId userId
        { rating := Js.num r, content := Js.str c, verified := Js.bool v }).1 ≠
      .validationError) ∧
    (∃ rev, (reviewsPost s sess bookId userId
        { rating := Js.num r, content := Js.str c, verified := Js.bool true }).1 = .created rev ∧
      rev.rating = r ∧
      rev ∈ (reviewsPost s sess bookId userId
        { rating := Js.num r, content := Js.str c, verified := Js.bool true }).2.reviews) := by
  constructor
  · intro v
    have h := (reviewsPost_gate_spec s sess bookId userId r c v).2.1
    intro hbad
    cases v with
    | true =>
      rcases ((reviewsPost_gate_spec s sess bookId userId r c true).1).mpr (Or.inl rfl) with ⟨rev, hrev⟩
      rw [hbad] at hrev
      cases hrev
    | false =>
      cases hb : sessionIsVerified sess bookId with
      | true =>
        rcases ((reviewsPost_gate_spec s sess bookId userId r c false).1).mpr (Or.inr hb) with ⟨rev, hrev⟩
        rw [hbad] at hrev
        cases hrev
      | false =>
        have := ((reviewsPost_gate_spec s sess bookId userId r c false).2.1).mpr ⟨rfl, hb⟩
        rw [hbad] at this
        cases this
  · rcases ((reviewsPost_gate_spec s sess bookId userId r c true).1).mpr (Or.inl rfl) with ⟨rev, hrev⟩
    rcases (reviewsPost_gate_spec s sess bookId userId r c true).2.2.2 rev hrev with
      ⟨hmem, -, -, hr, -⟩
    exact ⟨rev, hrev, hr, hmem⟩

/-- Witness for the amended C2: the out-of-range rating 6 is accepted and
persisted at a concrete store. -/
theorem claim2_witness :
    (∃ rev, (reviewsPost exStoreNoQuiz exSession 1 7
        { rating := Js.num 6, content := Js.str "great", verified := Js.bool true }).1 = .created rev ∧
      rev.rating = 6 ∧
      rev ∈ (reviewsPost exStoreNoQuiz exSession 1 7
        { rating := Js.num 6, content := Js.str "great", verified := Js.bool true }).2.reviews) :=
  (claim2_no_rating_range_check exStoreNoQuiz exSession 1 7 6 "great").2

theorem setBookAggregates_id (m : Rat) (n : Nat) (b : Book) :
    (setBookAggregates m n b).id = b.id := rfl

theorem find?_updateFirstBook (id : Nat) (f : Book → Book)
    (hf : ∀ b, (f b).id = b.id) (l : List Book) :
    (updateFirstBook id f l).find? (fun b => b.id == id) =
      (l.find? (fun b => b.id == id)).map f := by
  induction l with
  | nil => rfl
  | cons b rest ih =>
    rw [updateFirstBook]
    cases hb : (b.id == id)
    · rw [if_neg Bool.false_ne_true,
        List.find?_cons_of_neg _ (by simp [hb]), List.find?_cons_of_neg _ (by simp [hb]), ih]
    · rw [if_pos rfl,
        List.find?_cons_of_pos _ (by show ((f b).id == id) = true; rw [hf b]; exact hb),
        List.find?_cons_of_pos _ (by simp [hb])]
      rfl

theorem updateFirstBook_not_found (id : Nat) (f : Book → Book) (l : List Book)
    (h : l.find? (fun b => b.id == id) = none) : updateFirstBook id f l = l := by
  induction l with
  | nil => rfl
  | cons b rest ih =>
    have hall := List.find?_eq_none.mp h
    have hb : ¬ (b.id == id) = true := by simpa using hall b (List.mem_cons_self b rest)
    rw [updateFirstBook, if_neg hb]
    rw [ih (List.find?_eq_none.mpr (fun x hx => hall x (List.mem_cons_of_mem b hx)))]

theorem updateFirstBook_twice (id : Nat) (f : Book → Book)
    (hf2 : ∀ b, f (f b) = f b) (hid : ∀ b, (f b).id = b.id) (l : List Book) :
    updateFirstBook id f (updateFirstBook id f l) = updateFirstBook id f l := by
  induction l with
  | nil => rfl
  | cons b rest ih =>
    rw [updateFirstBook]
    cases hb : (b.id == id)
    · rw [if_neg Bool.false_ne_true, updateFirstBook, if_neg (by simp [hb]), ih]
    · rw [if_pos rfl, updateFirstBook,
        if_pos (by show ((f b).id == id) = true; rw [hid b]; exact hb), hf2]

theorem mem_updateFirstReview (id : Nat) (f : Review → Review) (l : List Review)
    (r0 : Review) (h : l.find? (fun r => r.id == id) = some r0) :
    f r0 ∈ updateFirstReview id f l := by
  induction l with
  | nil => cases h
  | cons r rest ih =>
    rw [updateFirstReview]
    cases hb : (r.id == id)
    · rw [if_neg Bool.false_ne_true]
      rw [List.find?_cons_of_neg _ (by simp [hb])] at h
      exact List.mem_cons_of_mem r (ih h)
    · rw [if_pos rfl]
      rw [List.find?_cons_of_pos _ (by simp [hb])] at h
      cases h
      exact List.mem_cons_self _ _

theorem getBook_set_aggregates (s : StorageState) (key bookId : Nat) (book : Book)
    (m : Rat) (n : Nat) (hb : getBook s bookId = some book) (hkey : key = bookId) :
    getBook { s with books := updateFirstBook key (setBookAggregates m n) s.books } bookId
      = some (setBookAggregates m n book) := by
  subst hkey
  rw [getBook]
  show (updateFirstBook key (setBookAggregates m n) s.books).find?
      (fun b => b.id == key) = _
  rw [find?_updateFirstBook key _ (setBookAggregates_id m n) s.books]
  rw [getBook] at hb
  rw [hb]
  rfl

theorem ratingMean_of_ne_nil (l : List Review) (h : l ≠ []) :
    ratingMean l = (sumRatings l : Rat) / (l.length : Rat) := by
  rw [ratingMean, if_pos (List.length_pos.mpr h)]

theorem createReview_snd (s : StorageState) (ins : InsertReview) :
    (createReview s ins).2 =
      recompute { s with reviews := s.reviews ++ [(createReview s ins).1] } ins.bookId := by
  rw [createReview_fst, createReview, recompute]
  cases hb : getBook
      { s with
        reviews := s.reviews ++
          [{ id := nextId (s.reviews.map (fun r => r.id)), bookId := ins.bookId,
             userId := ins.userId, rating := ins.rating, content := ins.content }] }
      ins.bookId <;> rfl

theorem updateReview_snd (s : StorageState) (id : Nat) (u : ReviewUpdate) (r0 : Review)
    (h : getReview s id = some r0) :
    (updateReview s id u).2 =
      recompute { s with reviews := updateFirstReview id (applyReviewUpdate u) s.reviews }
        (applyReviewUpdate u r0).bookId := by
  rw [updateReview, h, recompute]
  dsimp only
  cases hb : getBook
      { s with reviews := updateFirstReview id (applyReviewUpdate u) s.reviews }
      (applyReviewUpdate u r0).bookId with
  | none =>
    dsimp only
    rw [getBook] at hb
    rw [updateFirstBook_not_found _ _ _ hb]
  | some book =>
    dsimp only
    rw [getBook_id_eq hb]

theorem recompute_establishes (s1 : StorageState) (bookId : Nat) (book : Book)
    (hbook : getBook s1 bookId = some book)
    (hne : getReviewsByBook s1 bookId ≠ []) :
    (getBook (recompute s1 bookId) bookId).map Book.averageRating =
      some (ratingMean (getReviewsByBook (recompute s1 bookId) bookId)) ∧
    (getBook (recompute s1 bookId) bookId).map Book.totalReviews =
      some (getReviewsByBook (recompute s1 bookId) bookId).length := by
  rw [recompute, hbook]
  dsimp only
  rw [getBook_set_aggregates s1 book.id bookId book _ _ hbook (getBook_id_eq hbook)]
  have hrv : getReviewsByBook
      { s1 with
        books := updateFirstBook book.id
          (setBookAggregates
            ((sumRatings (getReviewsByBook s1 bookId) : Rat) /
              ((getReviewsByBook s1 bookId).length : Rat))
            (getReviewsByBook s1 bookId).length) s1.books } bookId
      = getReviewsByBook s1 bookId := rfl
  rw [hrv, ratingMean_of_ne_nil _ hne]
  exact ⟨rfl, rfl⟩

/-- Claim C6: after a review creation, update or deletion, the stored
average rating of the affected book equals the arithmetic mean of the
ratings of all reviews then stored for it (0 when none remain) and its
total-review count equals the number of those reviews. -/
theorem claim6_rating_aggregates (s : StorageState) (ins : InsertReview) (id : Nat)
    (u : ReviewUpdate) (r0 : Review) :
    ((getBook s ins.bookId).isSome = true →
      (getBook (createReview s ins).2 ins.bookId).map Book.averageRating =
        some (ratingMean (getReviewsByBook (createReview s ins).2 ins.bookId)) ∧
      (getBook (createReview s ins).2 ins.bookId).map Book.totalReviews =
        some (getReviewsByBook (createReview s ins).2 ins.bookId).length) ∧
    (getReview s id = some r0 → (getBook s r0.bookId).isSome = true →
      (getBook (updateReview s id u).2 r0.bookId).map Book.averageRating =
        some (ratingMean (getReviewsByBook (updateReview s id u).2 r0.bookId)) ∧
      (getBook (updateReview s id u).2 r0.bookId).map Book.totalReviews =
        some (getReviewsByBook (updateReview s id u).2 r0.bookId).length) ∧
    (getReview s id = some r0 → (getBook s r0.bookId).isSome = true →
      (getBook (deleteReview s id).2 r0.bookId).map Book.averageRating =
        some (ratingMean (getReviewsByBook (deleteReview s id).2 r0.bookId)) ∧
      (getBook (deleteReview s id).2 r0.bookId).map Book.totalReviews =
        some (getReviewsByBook (deleteReview s id).2 r0.bookId).length) := by
  refine ⟨?_, ?_, ?_⟩
  · intro hsome
    obtain ⟨book, hbook⟩ := Option.isSome_iff_exists.mp hsome
    rw [createReview_snd s ins]
    have hbook1 :
        getBook { s with reviews := s.reviews ++ [(createReview s ins).1] } ins.bookId =
          some book := hbook
    have hmem : (createReview s ins).1 ∈
        getReviewsByBook { s with reviews := s.reviews ++ [(createReview s ins).1] }
          ins.bookId := by
      refine List.mem_filter.mpr ⟨List.mem_append_right _ (List.mem_singleton_self _), ?_⟩
      show ((createReview s ins).1.bookId == ins.bookId) = true
      rw [createReview_fst]
      exact beq_self_eq_true ins.bookId
    exact recompute_establishes _ ins.bookId book hbook1 (List.ne_nil_of_mem hmem)
  · intro h hsome
    obtain ⟨book, hbook⟩ := Option.isSome_iff_exists.mp hsome
    rw [updateReview_snd s id u r0 h]
    rw [show (applyReviewUpdate u r0).bookId = r0.bookId from rfl]
    have hbook1 :
        getBook { s with reviews := updateFirstReview id (applyReviewUpdate u) s.reviews }
          r0.bookId = some book := hbook
    have hmem : applyReviewUpdate u r0 ∈
        getReviewsByBook { s with reviews := updateFirstReview id (applyReviewUpdate u) s.reviews }
          r0.bookId := by
      refine List.mem_filter.mpr ⟨?_, ?_⟩
      · exact mem_updateFirstReview id (applyReviewUpdate u) s.reviews r0 h
      · show ((applyReviewUpdate u r0).bookId == r0.bookId) = true
        exact beq_self_eq_true r0.bookId
    exact recompute_establishes _ r0.bookId book hbook1 (List.ne_nil_of_mem hmem)
  · intro h hsome
    obtain ⟨book, hbook⟩ := Option.isSome_iff_exists.mp hsome
    rw [deleteReview, h]
    dsimp only
    have hbook1 :
        getBook { s with reviews := eraseFirstReview id s.reviews } r0.bookId =
          some book := hbook
    rw [hbook1]
    dsimp only
    rw [getBook_set_aggregates _ book.id r0.bookId book _ _ hbook1 (getBook_id_eq hbook1)]
    exact ⟨rfl, rfl⟩

/-- Witness for C6 at the example of the spec: creating a rating-4 review on
ratings [5, 3] gives mean 4 and count 3; deleting the rating-3 review then
gives mean 9/2 and count 2; updating the rating-3 review to 5 on [5, 3]
gives mean 5 and count 2. -/
theorem claim6_witness :
    (getBook exStore6 1).isSome = true ∧
    (getBook (createReview exStore6 exIns6).2 1).map Book.averageRating =
      some (ratingMean (getReviewsByBook (createReview exStore6 exIns6).2 1)) ∧
    ratingMean (getReviewsByBook (createReview exStore6 exIns6).2 1) = 4 ∧
    (getBook (createReview exStore6 exIns6).2 1).map Book.totalReviews = some 3 ∧
    (getBook (deleteReview exStore6Full 2).2 1).map Book.averageRating =
      some (ratingMean (getReviewsByBook (deleteReview exStore6Full 2).2 1)) ∧
    ratingMean (getReviewsByBook (deleteReview exStore6Full 2).2 1) = 9 / 2 ∧
    (getBook (deleteReview exStore6Full 2).2 1).map Book.totalReviews = some 2 ∧
    (getBook (updateReview exStore6 2 { rating := some 5, content := none }).2 1).map
        Book.averageRating =
      some (ratingMean (getReviewsByBook
        (updateReview exStore6 2 { rating := some 5, content := none }).2 1)) ∧
    ratingMean (getReviewsByBook
      (updateReview exStore6 2 { rating := some 5, content := none }).2 1) = 5 :=
  ⟨by decide,
   ((claim6_rating_aggregates exStore6 exIns6 2 { rating := some 5, content := none }
      { id := 2, bookId := 1, userId := 12, rating := 3, content := "y" }).1 (by decide)).1,
   by
     rw [show getReviewsByBook (createReview exStore6 exIns6).2 1 =
       [{ id := 1, bookId := 1, userId := 11, rating := 5, content := "x" },
        { id := 2, bookId := 1, userId := 12, rating := 3, content := "y" },
        { id := 3, bookId := 1, userId := 13, rating := 4, content := "z" }] from by decide]
     norm_num [ratingMean, sumRatings],
   ((claim6_rating_aggregates exStore6 exIns6 2 { rating := some 5, content := none }
      { id := 2, bookId := 1, userId := 12, rating := 3, content := "y" }).1 (by decide)).2,
   ((claim6_rating_aggregates exStore6Full exIns6 2 { rating := some 5, content := none }
      { id := 2, bookId := 1, userId := 12, rating := 3, content := "y" }).2.2 (by decide)
      (by decide)).1,
   by
     rw [show getReviewsByBook (deleteReview exStore6Full 2).2 1 =
       [{ id := 1, bookId := 1, userId := 11, rating := 5, content := "x" },
        { id := 3, bookId := 1, userId := 13, rating := 4, content := "z" }] from by decide]
     norm_num [ratingMean, sumRatings],
   ((claim6_rating_aggregates exStore6Full exIns6 2 { rating := some 5, content := none }
      { id := 2, bookId := 1, userId := 12, rating := 3, content := "y" }).2.2 (by decide)
      (by decide)).2,
   ((claim6_rating_aggregates exStore6 exIns6 2 { rating := some 5, content := none }
      { id := 2, bookId := 1, userId := 12, rating := 3, content := "y" }).2.1 (by decide)
      (by decide)).1,
   by
     rw [show getReviewsByBook
         (updateReview exStore6 2 { rating := some 5, content := none }).2 1 =
       [{ id := 1, bookId := 1, userId := 11, rating := 5, content := "x" },
        { id := 2, bookId := 1, userId := 12, rating := 5, content := "y" }] from by decide]
     norm_num [ratingMean, sumRatings]⟩

/-- Claim C7: the rating recomputation step is idempotent — with no
intervening review change, running it twice for a book yields the same state
as running it once, so both runs store identical average rating and review
count.  The hypothesis restricts the statement to books with at least one
review, the only situation in which the code runs this step (after a create
or update the review set is non-empty, and the delete variant guards the
empty set to 0); this keeps the rational-arithmetic embedding honest, since
for an empty set the JavaScript expression would divide 0 by 0. -/
theorem claim7_recompute_idempotent (s : StorageState) (bookId : Nat)
    (_hne : getReviewsByBook s bookId ≠ []) :
    recompute (recompute s bookId) bookId = recompute s bookId ∧
    (getBook (recompute (recompute s bookId) bookId) bookId).map
        (fun b => (b.averageRating, b.totalReviews)) =
      (getBook (recompute s bookId) bookId).map
        (fun b => (b.averageRating, b.totalReviews)) := by
  have hmain : recompute (recompute s bookId) bookId = recompute s bookId := by
    cases hb : getBook s bookId with
    | none =>
      have h1 : recompute s bookId = s := by rw [recompute, hb]
      rw [h1, h1]
    | some book =>
      have h1 : recompute s bookId =
          { s with
            books := updateFirstBook book.id
              (setBookAggregates
                ((sumRatings (getReviewsByBook s bookId) : Rat) /
                  ((getReviewsByBook s bookId).length : Rat))
                (getReviewsByBook s bookId).length) s.books } := by
        rw [recompute, hb]
      rw [h1]
      have hb2 := getBook_set_aggregates s book.id bookId book
        ((sumRatings (getReviewsByBook s bookId) : Rat) /
          ((getReviewsByBook s bookId).length : Rat))
        (getReviewsByBook s bookId).length hb (getBook_id_eq hb)
      rw [recompute, hb2]
      dsimp only
      rw [show getReviewsByBook
          { s with
            books := updateFirstBook book.id
              (setBookAggregates
                ((sumRatings (getReviewsByBook s bookId) : Rat) /
                  ((getReviewsByBook s bookId).length : Rat))
                (getReviewsByBook s bookId).length) s.books } bookId
          = getReviewsByBook s bookId from rfl]
      rw [show (setBookAggregates
          ((sumRatings (getReviewsByBook s bookId) : Rat) /
            ((getReviewsByBook s bookId).length : Rat))
          (getReviewsByBook s bookId).length book).id = book.id from rfl]
      rw [updateFirstBook_twice book.id
        (setBookAggregates
          ((sumRatings (getReviewsByBook s bookId) : Rat) /
            ((getReviewsByBook s bookId).length : Rat))
          (getReviewsByBook s bookId).length)
        (fun b => rfl) (fun b => rfl) s.books]
  exact ⟨hmain, by rw [hmain]⟩

/-- Witness for C7: on the example store with reviews [5, 3] for book 1, a
second recomputation changes nothing and the stored aggregate is (4, 2)
after either run. -/
theorem claim7_witness :
    getReviewsByBook exStore6 1 ≠ [] ∧
    recompute (recompute exStore6 1) 1 = recompute exStore6 1 ∧
    (getBook (recompute (recompute exStore6 1) 1) 1).map Book.totalReviews =
      (getBook (recompute exStore6 1) 1).map Book.totalReviews ∧
    (getBook (recompute exStore6 1) 1).map Book.totalReviews = some 2 :=
  ⟨by decide, (claim7_recompute_idempotent exStore6 1 (by decide)).1,
   by rw [(claim7_recompute_idempotent exStore6 1 (by decide)).1], by decide⟩

end BookNest
